import Mathlib

/-!
Shallow embedding of the proxy-pool manager (proxy_manager.py, proxy_validator.py,
proxy_storage.py) and proofs about its rotation, validation, refresh and storage
behaviour.

Python dict fields are modelled with `Option`: `none` means the key is absent.
The `response_time` key can additionally be present but bound to Python `None`
(every freshly scraped proxy is built that way, proxy_manager.py line 95), so it
is modelled as `Option (Option ℚ)`:
  `none`             — key absent,
  `some none`        — key present, value `None`,
  `some (some t)`    — key present, numeric value `t` (seconds).
Timestamps and durations are rationals; counters are integers (Python ints).
-/

namespace ProxyMgr

/-- A proxy record, as the dictionaries built by `_parse_proxy_list`
(proxy_manager.py lines 89-97), the scrapers in proxy_sources.py, and the rows
returned by `ProxyStorage.load_proxies`.  Optional fields model keys that may be
absent from the dict. -/
structure Proxy where
  ip : String
  port : String
  protocol : String
  country : Option String := none
  anonymity : Option String := none
  response_time : Option (Option ℚ) := none
  last_checked : Option ℚ := none
  success_count : Option Int := none
  fail_count : Option Int := none
deriving DecidableEq, Repr

/-- One parsed table row of `ProxyManager._parse_proxy_list`
(proxy_manager.py lines 86-98): given the text of the row's columns and the
current time, build the proxy dict.  Rows with fewer than 7 columns are
skipped.  The BeautifulSoup `.text` extraction together with the `.strip()` /
`.lower()` normalization of each cell belongs to the out-of-scope HTML
scraping collaborator, so `cols` stands for the already-normalized cell texts.
Note `response_time` is the Python value `None` (`some none` here) and the
counters are absent. -/
def parseProxyRow (cols : List String) (now : ℚ) : Option Proxy :=
  if cols.length ≥ 7 then
    some { ip := cols.getD 0 ""
         , port := cols.getD 1 ""
         , country := some (cols.getD 3 "")
         , protocol := if cols.getD 6 "" = "yes" then "https" else "http"
         , anonymity := some (cols.getD 4 "")
         , response_time := some none
         , last_checked := some now }
  else none

/-- `ProxyManager._parse_proxy_list` over the whole table: the rows (each as its
column texts), header row already skipped. -/
def parseProxyList (rows : List (List String)) (now : ℚ) : List Proxy :=
  rows.filterMap (fun cols => parseProxyRow cols now)

/-- The Python comparison `p.get('response_time', 5) < 5` in
`ProxyManager.rotate_proxy` (proxy_manager.py line 148).  A missing key falls
back to the default `5`, and `5 < 5` is false; a key bound to `None` makes
`None < 5` raise `TypeError` (modelled as `Except.error ()`); a numeric value is
compared against the threshold `5`. -/
def fastCheck (p : Proxy) : Except Unit Bool :=
  match p.response_time with
  | none => .ok (decide ((5 : ℚ) < 5))
  | some none => .error ()
  | some (some t) => .ok (decide (t < 5))

/-- The list comprehension `[p for p in self.proxies if p.get('response_time', 5) < 5]`
(proxy_manager.py line 148), which raises as soon as one element's comparison
raises. -/
def fastProxies : List Proxy → Except Unit (List Proxy)
  | [] => .ok []
  | p :: ps => do
      let b ← fastCheck p
      let rest ← fastProxies ps
      pure (if b then p :: rest else rest)

/-- `ProxyManager.rotate_proxy` (proxy_manager.py lines 140-153).  `random.choice`
is modelled by an arbitrary index `c` into the filtered list (taken modulo its
length).  Returns `none` on an empty pool, the chosen fast proxy when the filter
is non-empty, `none` when the filter is empty, and `Except.error ()` when the
comprehension raises `TypeError`. -/
def rotateProxy (pool : List Proxy) (c : Nat) : Except Unit (Option Proxy) :=
  if pool.isEmpty then .ok none
  else
    match fastProxies pool with
    | .error e => .error e
    | .ok fast => if fast.isEmpty then .ok none else .ok (fast.get? (c % fast.length))

/-- The filter predicate `rotate_proxy` effectively applies to a pool member
whose `response_time` is absent or numeric: only a numeric value strictly below
the 5-second threshold passes (an absent key defaults to `5`, which is not
`< 5`). -/
def passesFreshness (p : Proxy) : Bool :=
  match p.response_time with
  | some (some t) => decide (t < 5)
  | _ => false

/-- The claim's reading of the filter: a member whose `response_time` is missing
is treated as passing the filter via a default value. -/
def claimPassesFreshness (p : Proxy) : Bool :=
  match p.response_time with
  | some (some t) => decide (t < 5)
  | _ => true

/-! ### Validator (proxy_validator.py / proxy_manager.py `validate_proxy`) -/

/-- The observable outcome of one HTTP probe through a candidate proxy:
either a response with some status code arrived within the timeout, or the
request raised (timeout, connection refused, TLS failure, DNS failure, ...). -/
inductive ProbeOutcome
  | status (code : Nat)
  | failure
deriving DecidableEq, Repr

/-- The probe loop shared by `ProxyValidator.validate_proxy`
(proxy_validator.py lines 26-38) and `ProxyManager.validate_proxy`
(proxy_manager.py lines 111-122): walk the test URLs in order; a raised request
or a status different from `200` returns `False` at once; otherwise continue. -/
def probeAll (net : String → ProbeOutcome) : List String → Bool
  | [] => true
  | u :: us =>
      match net u with
      | .status code => if code = 200 then probeAll net us else false
      | .failure => false

/-- `validate_proxy` (proxy_validator.py lines 21-47, the same logic as
proxy_manager.py lines 102-126): probe every test URL through the candidate;
on success, set `response_time` to the elapsed wall-clock time `t1 - t0` across
all probes and `last_checked` to the current time `now`, and return `True`; on
any probe failure return `False` without touching the dict.  `net` gives each
URL's outcome for this candidate; `t0`, `t1` and `now` are the wall-clock
readings taken by the code. -/
def validateProxy (testUrls : List String) (net : String → ProbeOutcome)
    (t0 t1 now : ℚ) (p : Proxy) : Bool × Proxy :=
  if probeAll net testUrls then
    (true, { p with response_time := some (some (t1 - t0)), last_checked := some now })
  else
    (false, p)

/-- The test URL list of `ProxyValidator.__init__` (proxy_validator.py
lines 13-17). -/
def validatorTestUrls : List String :=
  ["http://www.google.com", "https://www.amazon.com", "https://www.github.com"]

/-- The test URL list of `ProxyManager.__init__` (proxy_manager.py
lines 27-30). -/
def managerTestUrls : List String :=
  ["http://www.google.com", "https://www.github.com"]

/-- The claim's acceptance predicate for a probe outcome: an HTTP 2xx response
arrived within the timeout. -/
def claimProbeOk (o : ProbeOutcome) : Bool :=
  match o with
  | .status code => decide (200 ≤ code ∧ code < 300)
  | .failure => false

/-! ### Storage (proxy_storage.py) -/

/-- One row of the `proxies` table (proxy_storage.py lines 21-34), primary key
`(ip, port)`.  `response_time` is `Option ℚ` because SQLite stores `NULL` when
the bound Python value is `None`. -/
structure DBRow where
  ip : String
  port : String
  protocol : String
  country : String
  anonymity : String
  response_time : Option ℚ
  last_checked : ℚ
  success_count : Int
  fail_count : Int
deriving DecidableEq, Repr

/-- The parameter tuple `ProxyStorage.save_proxies` binds for one proxy dict
(proxy_storage.py lines 49-57): `proxy.get` defaults for absent keys are
`'unknown'` for country and anonymity, `0` for `response_time` and the
counters, and the current time for `last_checked`.  A `response_time` key
present but bound to `None` is stored as SQL `NULL`. -/
def toRow (now : ℚ) (p : Proxy) : DBRow :=
  { ip := p.ip
  , port := p.port
  , protocol := p.protocol
  , country := p.country.getD "unknown"
  , anonymity := p.anonymity.getD "unknown"
  , response_time := match p.response_time with
      | none => some 0
      | some v => v
  , last_checked := p.last_checked.getD now
  , success_count := p.success_count.getD 0
  , fail_count := p.fail_count.getD 0 }

/-- Whether two rows collide on the primary key `(ip, port)`. -/
def sameKey (a b : DBRow) : Bool :=
  a.ip = b.ip ∧ a.port = b.port

/-- SQLite `INSERT OR REPLACE` on the `proxies` table (proxy_storage.py
lines 44-48): the row with the same primary key, if any, is deleted and the new
row inserted. -/
def upsertRow (store : List DBRow) (r : DBRow) : List DBRow :=
  store.filter (fun q => ! sameKey q r) ++ [r]

/-- `ProxyStorage.save_proxies` (proxy_storage.py lines 38-59): one
`INSERT OR REPLACE` per dict, in order. -/
def saveProxies (store : List DBRow) (ps : List Proxy) (now : ℚ) : List DBRow :=
  ps.foldl (fun s p => upsertRow s (toRow now p)) store

/-- The `WHERE` clause of `ProxyStorage.load_proxies` (proxy_storage.py
lines 66-70) for one row: `success_count * 1.0 / (success_count + fail_count)
>= min_uptime AND last_checked >= now - 86400`.  When both counters are zero,
SQLite evaluates the division to `NULL` and the comparison is not satisfied. -/
def rowSelected (minUptime : ℚ) (now : ℚ) (r : DBRow) : Bool :=
  (if r.success_count + r.fail_count = 0 then false
   else decide ((r.success_count : ℚ) / ((r.success_count : ℚ) + (r.fail_count : ℚ)) ≥ minUptime))
  && decide (r.last_checked ≥ now - 86400)

/-- The dict `ProxyStorage.load_proxies` builds from a selected row
(proxy_storage.py lines 74-84): every key present, a `NULL` response time
becoming Python `None`. -/
def rowToDict (r : DBRow) : Proxy :=
  { ip := r.ip
  , port := r.port
  , protocol := r.protocol
  , country := some r.country
  , anonymity := some r.anonymity
  , response_time := some r.response_time
  , last_checked := some r.last_checked
  , success_count := some r.success_count
  , fail_count := some r.fail_count }

/-- `ProxyStorage.load_proxies` (proxy_storage.py lines 61-88). -/
def loadProxies (store : List DBRow) (minUptime : ℚ) (now : ℚ) : List Proxy :=
  (store.filter (rowSelected minUptime now)).map rowToDict

/-- `ProxyStorage.update_proxy_status` (proxy_storage.py lines 90-108): the SQL
`UPDATE` bumps one counter by one on every row whose `(ip, port)` matches the
given proxy. -/
def updateProxyStatus (store : List DBRow) (ip port : String) (success : Bool) :
    List DBRow :=
  store.map (fun r =>
    if r.ip = ip ∧ r.port = port then
      if success then { r with success_count := r.success_count + 1 }
      else { r with fail_count := r.fail_count + 1 }
    else r)

/-! ### Validation scheduler (proxy_validator.py `validate_proxies`)

`ProxyValidator.validate_proxies` (lines 49-61) wraps each candidate's probe in
`async with sem` for a single `asyncio.Semaphore(self.max_concurrent_tests)`.
The semaphore discipline is modelled as a transition system over the batch:
each of the `n` candidate tasks is waiting, running (inside the `async with`
block, i.e. its probe is in flight) or done; entering the block consumes one of
the semaphore's permits and leaving it releases the permit. -/

/-- The phase of one candidate's `_validate_with_semaphore` task. -/
inductive TaskState
  | waiting
  | running
  | done
deriving DecidableEq, Repr

/-- A scheduler state for a batch of `n` candidates: the phase of each task and
the semaphore's free permit count. -/
structure SchedState (n : Nat) where
  tasks : Fin n → TaskState
  permits : Nat

/-- The initial state of `validate_proxies` on a batch of `n` candidates with
concurrency cap `cap`: every task waiting, all `cap` permits free. -/
def initSched (cap n : Nat) : SchedState n :=
  { tasks := fun _ => .waiting, permits := cap }

/-- One scheduler step: a waiting task acquires the semaphore (only possible
when a permit is free) and its probe goes in flight, or a running task's probe
completes and releases the semaphore. -/
inductive SchedStep (n : Nat) : SchedState n → SchedState n → Prop
  | acquire (s : SchedState n) (i : Fin n) :
      s.tasks i = .waiting → 0 < s.permits →
      SchedStep n s ⟨Function.update s.tasks i .running, s.permits - 1⟩
  | release (s : SchedState n) (i : Fin n) :
      s.tasks i = .running →
      SchedStep n s ⟨Function.update s.tasks i .done, s.permits + 1⟩

/-- The states `validate_proxies` can reach on a batch of `n` candidates under
cap `cap`. -/
def SchedReachable (cap n : Nat) (s : SchedState n) : Prop :=
  Relation.ReflTransGen (SchedStep n) (initSched cap n) s

/-- The number of probes in flight in a scheduler state. -/
def inFlight {n : Nat} (s : SchedState n) : Nat :=
  (Finset.univ.filter (fun i => s.tasks i = TaskState.running)).card

/-- The default concurrency cap `max_concurrent_tests`
(proxy_validator.py line 19). -/
def max_concurrent_tests : Nat := 50

/-! ### Refresh loop (proxy_manager.py `refresh_proxy_list`) -/

/-- The shared state of `ProxyManager`: the pool and the current selection. -/
structure MgrState where
  proxies : List Proxy
  current_proxy : Option Proxy
deriving DecidableEq, Repr

/-- `ProxyManager.scrape_proxies` (proxy_manager.py lines 57-77): each source's
fetch either raises (the exception is caught and logged, the source skipped) or
yields a page whose parsed rows are appended.  A source is modelled as the
outcome of its fetch: an error message or the pre-extracted table rows. -/
def scrapeProxies (fetches : List (Except String (List (List String)))) (now : ℚ) :
    List Proxy :=
  fetches.foldl (fun acc f =>
    match f with
    | .error _ => acc
    | .ok rows => acc ++ parseProxyList rows now) []

/-- `ProxyManager.validate_proxies` (proxy_manager.py lines 128-138): keep, in
order, the proxies that `validate_proxy` accepts, each mutated with its measured
`response_time` and `last_checked`.  `net` gives each proxy's probe outcomes and
`clock` its three wall-clock readings. -/
def validateProxiesMgr (net : Proxy → String → ProbeOutcome)
    (clock : Proxy → ℚ × ℚ × ℚ) (ps : List Proxy) : List Proxy :=
  ps.filterMap (fun p =>
    let t := clock p
    let r := validateProxy managerTestUrls (net p) t.1 t.2.1 t.2.2 p
    if r.1 then some r.2 else none)

/-- One iteration of the `while True` body of `ProxyManager.refresh_proxy_list`
(proxy_manager.py lines 161-183): scrape, publish the scraped list to the pool,
validate (replacing the pool with the survivors), rotate once if there is no
current proxy, then sleep `check_interval = 3600` seconds.  An exception
escaping the body (only `rotate_proxy`'s `TypeError` can arise in this model)
is caught and answered with the 60-second backoff sleep instead.  Returns the
state after the iteration and the sleep duration it performs. -/
def refreshCycle (st : MgrState) (fetches : List (Except String (List (List String))))
    (scrapeNow : ℚ) (net : Proxy → String → ProbeOutcome)
    (clock : Proxy → ℚ × ℚ × ℚ) (c : Nat) : MgrState × ℚ :=
  let newProxies := scrapeProxies fetches scrapeNow
  let valid := validateProxiesMgr net clock newProxies
  let stV : MgrState := { proxies := valid, current_proxy := st.current_proxy }
  if stV.current_proxy.isNone then
    match rotateProxy stV.proxies c with
    | .ok (some p) => ({ stV with current_proxy := some p }, 3600)
    | .ok none => (stV, 3600)
    | .error _ => (stV, 60)
  else (stV, 3600)

/-! ### Scheduler lemmas and claim C2 -/

lemma inFlight_update_running {n : Nat} (s : SchedState n) (p2 : Nat) (i : Fin n)
    (h : s.tasks i ≠ TaskState.running) :
    inFlight (⟨Function.update s.tasks i TaskState.running, p2⟩ : SchedState n) =
      inFlight s + 1 := by
  unfold inFlight
  have hset : (Finset.univ.filter
        (fun j => Function.update s.tasks i TaskState.running j = TaskState.running))
      = insert i (Finset.univ.filter (fun j => s.tasks j = TaskState.running)) := by
    ext j
    by_cases hj : j = i
    · subst hj; simp [Function.update_same]
    · simp [Function.update_noteq hj, hj]
  rw [hset, Finset.card_insert_of_not_mem (by simp [h])]

lemma inFlight_update_done {n : Nat} (s : SchedState n) (p2 : Nat) (i : Fin n)
    (h : s.tasks i = TaskState.running) :
    inFlight (⟨Function.update s.tasks i TaskState.done, p2⟩ : SchedState n) + 1 =
      inFlight s := by
  unfold inFlight
  have hset : (Finset.univ.filter
        (fun j => Function.update s.tasks i TaskState.done j = TaskState.running))
      = (Finset.univ.filter (fun j => s.tasks j = TaskState.running)).erase i := by
    ext j
    by_cases hj : j = i
    · subst hj; simp [Function.update_same]
    · simp [Function.update_noteq hj, hj]
  rw [hset, Finset.card_erase_add_one (by simp [h])]

/-- One scheduler step preserves the permit accounting. -/
lemma sched_step_invariant {cap n : Nat} {s t : SchedState n} (hst : SchedStep n s t)
    (ih : inFlight s + s.permits = cap) : inFlight t + t.permits = cap := by
  cases hst with
  | acquire i hw hp =>
      have h1 := inFlight_update_running s (s.permits - 1) i (by rw [hw]; intro hc; cases hc)
      have h2 : (⟨Function.update s.tasks i TaskState.running, s.permits - 1⟩ :
          SchedState n).permits = s.permits - 1 := rfl
      rw [h1, h2]
      omega
  | release i hr =>
      have h1 := inFlight_update_done s (s.permits + 1) i hr
      have h2 : (⟨Function.update s.tasks i TaskState.done, s.permits + 1⟩ :
          SchedState n).permits = s.permits + 1 := rfl
      rw [h2]
      omega

/-- Permit accounting: in every reachable scheduler state, the probes in flight
and the free permits always add up to the concurrency cap. -/
lemma sched_permit_invariant {cap n : Nat} {s : SchedState n}
    (h : SchedReachable cap n s) : inFlight s + s.permits = cap := by
  induction h with
  | refl => simp [initSched, inFlight]
  | tail _ step ih => exact sched_step_invariant step ih

/-- Claim C2: on any batch handed to `ProxyValidator.validate_proxies`, however
large, at most `max_concurrent_tests` (default 50) validation probes are in
flight simultaneously: every state the semaphore-gated scheduler can reach has
at most that many tasks inside the `async with sem` region. -/
theorem validate_proxies_concurrency_cap (n : Nat) (s : SchedState n)
    (h : SchedReachable max_concurrent_tests n s) :
    inFlight s ≤ max_concurrent_tests := by
  have := sched_permit_invariant h
  omega

/-- Witness for claim C2 at a concrete batch of 10000 candidates, in the
initial state of the scheduler. -/
theorem validate_proxies_concurrency_cap_witness :
    inFlight (initSched max_concurrent_tests 10000) ≤ max_concurrent_tests :=
  validate_proxies_concurrency_cap 10000 (initSched max_concurrent_tests 10000)
    Relation.ReflTransGen.refl

/-! ### Rotator lemmas and claims C1, C10 -/

@[simp]
lemma except_ok_bind {ε α β : Type} (a : α) (f : α → Except ε β) :
    (Except.ok a >>= f) = f a := rfl

@[simp]
lemma except_err_bind {ε α β : Type} (e : ε) (f : α → Except ε β) :
    ((Except.error e : Except ε α) >>= f) = Except.error e := rfl

/-- On a pool whose `response_time` values are all absent or numeric, the
comprehension of `rotate_proxy` does not raise and computes the freshness
filter. -/
lemma fastProxies_eq_filter (pool : List Proxy)
    (hclean : ∀ r ∈ pool, r.response_time ≠ some none) :
    fastProxies pool = .ok (pool.filter passesFreshness) := by
  induction pool with
  | nil => rfl
  | cons p ps ih =>
      have hp : p.response_time ≠ some none := hclean p (by simp)
      have ih2 := ih (fun q hq => hclean q (List.mem_cons_of_mem _ hq))
      match hrt : p.response_time with
      | none =>
          have h5 : decide ((5 : ℚ) < 5) = false := by decide
          simp [fastProxies, fastCheck, hrt, ih2, List.filter_cons, passesFreshness, h5,
            Except.bind]
      | some none => exact absurd hrt hp
      | some (some t) =>
          by_cases ht : t < 5
          · simp [fastProxies, fastCheck, hrt, ih2, List.filter_cons, passesFreshness, ht,
              Except.bind]
          · simp [fastProxies, fastCheck, hrt, ih2, List.filter_cons, passesFreshness, ht,
              Except.bind]

/-- If any pool member has its `response_time` key bound to `None`, the
comprehension of `rotate_proxy` raises. -/
lemma fastProxies_error (pool : List Proxy) (p : Proxy) (hp : p ∈ pool)
    (hrt : p.response_time = some none) :
    fastProxies pool = .error () := by
  induction pool with
  | nil => cases hp
  | cons a l ih =>
      rcases List.mem_cons.mp hp with h | h
      · subst h
        simp [fastProxies, fastCheck, hrt, Except.bind]
      · match ha : fastCheck a with
        | .error e => simp [fastProxies, ha, Except.bind]
        | .ok b => simp [fastProxies, ha, ih h, Except.bind]

instance {ε α : Type} [DecidableEq ε] [DecidableEq α] : DecidableEq (Except ε α) :=
  fun a b =>
    match a, b with
    | .ok x, .ok y =>
        if h : x = y then isTrue (by rw [h])
        else isFalse (fun hc => h (Except.ok.inj hc))
    | .error x, .error y =>
        if h : x = y then isTrue (by rw [h])
        else isFalse (fun hc => h (Except.error.inj hc))
    | .ok _, .error _ => isFalse (fun hc => Except.noConfusion hc)
    | .error _, .ok _ => isFalse (fun hc => Except.noConfusion hc)

/-- On a clean pool (no `response_time` bound to `None`), `rotate_proxy` is the
freshness filter followed by indexing with the choice index modulo the filtered
length, with `none` for an empty pool or an empty filter. -/
lemma rotateProxy_clean_eq (pool : List Proxy) (c : Nat)
    (hclean : ∀ r ∈ pool, r.response_time ≠ some none) :
    rotateProxy pool c =
      .ok (if (pool.filter passesFreshness).isEmpty then none
           else (pool.filter passesFreshness).get?
                  (c % (pool.filter passesFreshness).length)) := by
  cases pool with
  | nil => rfl
  | cons a l =>
      unfold rotateProxy
      rw [fastProxies_eq_filter _ hclean]
      show (if ((a :: l).filter passesFreshness).isEmpty then
              (Except.ok none : Except Unit (Option Proxy))
            else .ok (((a :: l).filter passesFreshness).get?
                        (c % ((a :: l).filter passesFreshness).length))) = _
      by_cases hf : ((a :: l).filter passesFreshness).isEmpty = true
      · rw [if_pos hf, if_pos hf]
      · rw [if_neg hf, if_neg hf]

/-- Claim C1 (amended): `rotate_proxy` returns `none` exactly when the pool is
empty or no member passes the freshness filter; any proxy it returns is a pool
member whose numeric `response_time` is below the 5-second threshold — a member
whose `response_time` key is missing falls back to the default `5`, which is
not `< 5`, so it FAILS the filter; and every member passing the filter can be
the selected one (the choice index `d` reaches each of them).  All of this under
the proviso that no member's `response_time` is bound to `None` (claim C10
covers that case). -/
theorem rotate_proxy_selection (pool : List Proxy) (c : Nat) (p q : Proxy)
    (hclean : ∀ r ∈ pool, r.response_time ≠ some none) :
    (rotateProxy pool c = .ok none ↔
        (pool = [] ∨ pool.filter passesFreshness = [])) ∧
    (rotateProxy pool c = .ok (some p) → p ∈ pool.filter passesFreshness) ∧
    (q ∈ pool.filter passesFreshness → ∃ d, rotateProxy pool d = .ok (some q)) := by
  refine ⟨?_, ?_, ?_⟩
  · rw [rotateProxy_clean_eq pool c hclean]
    constructor
    · intro h
      have h2 := Except.ok.inj h
      by_cases hf : (pool.filter passesFreshness).isEmpty = true
      · exact Or.inr (List.isEmpty_iff.mp hf)
      · exfalso
        rw [if_neg hf] at h2
        have hlen : 0 < (pool.filter passesFreshness).length := by
          cases hl : pool.filter passesFreshness with
          | nil => rw [List.isEmpty_iff.mpr hl] at hf; exact absurd rfl hf
          | cons x xs => simp [hl]
        rw [List.get?_eq_get (Nat.mod_lt c hlen)] at h2
        cases h2
    · intro h
      have hf : pool.filter passesFreshness = [] := by
        rcases h with h | h
        · rw [h]; rfl
        · exact h
      rw [if_pos (List.isEmpty_iff.mpr hf)]
  · rw [rotateProxy_clean_eq pool c hclean]
    intro h
    have h2 := Except.ok.inj h
    by_cases hf : (pool.filter passesFreshness).isEmpty = true
    · rw [if_pos hf] at h2
      cases h2
    · rw [if_neg hf] at h2
      exact List.get?_mem h2
  · intro hq
    rcases List.get?_of_mem hq with ⟨d, hd⟩
    have hdlt : d < (pool.filter passesFreshness).length := by
      by_contra hge
      rw [List.get?_eq_none.mpr (Nat.le_of_not_lt hge)] at hd
      cases hd
    refine ⟨d, ?_⟩
    rw [rotateProxy_clean_eq pool d hclean]
    rw [if_neg (by
      intro hfe
      rw [List.isEmpty_iff] at hfe
      rw [hfe] at hq
      cases hq)]
    rw [Nat.mod_eq_of_lt hdlt, hd]

/-- Witness for claim C1: the spec scenario, a pool of `X` with response time 1s
and `Y` with response time 10s; the characterization is applied at that pool. -/
def proxyX : Proxy :=
  { ip := "10.0.0.1", port := "8080", protocol := "http", response_time := some (some 1) }

/-- The slow proxy of the C1 scenario. -/
def proxyY : Proxy :=
  { ip := "10.0.0.2", port := "8080", protocol := "http", response_time := some (some 10) }

/-- Witness for claim C1's amended theorem, instantiated at the spec's scenario
pool `{X: 1s, Y: 10s}` with choice index 1: the characterization holds there
(and since `filter passesFreshness` of that pool is `[X]`, only `X` is ever
returned). -/
theorem rotate_proxy_selection_witness :
    (rotateProxy [proxyX, proxyY] 1 = .ok none ↔
        ([proxyX, proxyY] = [] ∨ [proxyX, proxyY].filter passesFreshness = [])) ∧
    (rotateProxy [proxyX, proxyY] 1 = .ok (some proxyX) →
        proxyX ∈ [proxyX, proxyY].filter passesFreshness) ∧
    (proxyX ∈ [proxyX, proxyY].filter passesFreshness →
        ∃ d, rotateProxy [proxyX, proxyY] d = .ok (some proxyX)) :=
  rotate_proxy_selection [proxyX, proxyY] 1 proxyX proxyX (by decide)

/-- A freshly discovered proxy dict with no `response_time` key at all. -/
def proxyNoRT : Proxy := { ip := "10.0.0.3", port := "3128", protocol := "http" }

/-- Counterexample to claim C1 as stated: a pool member whose `response_time`
key is missing passes the claim's reading of the filter (default value treated
as passing), so on the pool `[proxyNoRT]` the claim predicts a member is
selected; the code's `rotate_proxy` instead returns `none`, because the default
`5` fails the strict `< 5` comparison. -/
theorem rotate_proxy_missing_rt_counterexample :
    claimPassesFreshness proxyNoRT = true ∧
    [proxyNoRT].filter claimPassesFreshness ≠ [] ∧
    rotateProxy [proxyNoRT] 0 = .ok none := by decide

/-- Claim C10: scraped proxies carry `response_time = None`
(`_parse_proxy_list`, proxy_manager.py line 95), and whenever any pool member's
`response_time` key is bound to `None`, `rotate_proxy`'s filter comparison
`p.get('response_time', 5) < 5` raises `TypeError` instead of returning; so
`rotate_proxy` returns a proxy or `none` only when every member's
`response_time` is absent or numeric. -/
theorem rotate_proxy_none_type_error (cols : List String) (now : ℚ) (q : Proxy)
    (pool : List Proxy) (c : Nat) (p : Proxy)
    (hq : parseProxyRow cols now = some q)
    (hp : p ∈ pool) (hrt : p.response_time = some none) :
    q.response_time = some none ∧ rotateProxy pool c = .error () := by
  constructor
  · unfold parseProxyRow at hq
    split at hq
    · cases hq
      rfl
    · cases hq
  · have hne : pool.isEmpty = false := by
      cases pool with
      | nil => cases hp
      | cons a l => rfl
    rw [rotateProxy, hne]
    simp only [fastProxies_error pool p hp hrt]
    rfl

/-- The proxy dict built from a concrete 7-column scraped row. -/
def scrapedDemo : Proxy :=
  { ip := "1.1.1.1", port := "80", protocol := "https",
    country := some "US", anonymity := some "elite",
    response_time := some none, last_checked := some 0 }

/-- Witness for claim C10: a concrete 7-column scraped row yields a proxy with
`response_time = None`, and a pool containing it makes `rotate_proxy` raise. -/
theorem rotate_proxy_none_type_error_witness :
    scrapedDemo.response_time = some none ∧
    rotateProxy [scrapedDemo] 0 = .error () :=
  rotate_proxy_none_type_error ["1.1.1.1", "80", "x", "US", "elite", "x", "yes"] 0
    scrapedDemo [scrapedDemo] 0 scrapedDemo (by decide) (by simp) rfl

/-! ### Validator lemmas and claims C3, C4, C5 -/

/-- The probe loop succeeds exactly when every test URL answers with status
exactly 200. -/
lemma probeAll_eq_true_iff (net : String → ProbeOutcome) (urls : List String) :
    probeAll net urls = true ↔ ∀ u ∈ urls, net u = .status 200 := by
  induction urls with
  | nil => simp [probeAll]
  | cons u us ih =>
      cases hnu : net u with
      | status code =>
          by_cases hc : code = 200
          · subst hc
            simp [probeAll, hnu, ih, List.forall_mem_cons]
          · simp [probeAll, hnu, hc, List.forall_mem_cons]
      | failure =>
          simp [probeAll, hnu, List.forall_mem_cons]

/-- Claim C3 (amended): `validate_proxy` passes if and only if every configured
test URL, requested through the candidate, answers with HTTP status exactly 200
within the per-probe timeout (a timeout or connection error is a `failure`
outcome); any single probe failure or non-200 status makes it fail with no
partial credit; and on pass it records the elapsed wall-clock time `t1 - t0`
across all probes as the candidate's `response_time`. -/
theorem validate_proxy_pass_iff (urls : List String) (net : String → ProbeOutcome)
    (t0 t1 now : ℚ) (p : Proxy) :
    ((validateProxy urls net t0 t1 now p).1 = true ↔
        ∀ u ∈ urls, net u = .status 200) ∧
    ((validateProxy urls net t0 t1 now p).1 = true →
        (validateProxy urls net t0 t1 now p).2.response_time = some (some (t1 - t0))) := by
  constructor
  · rw [← probeAll_eq_true_iff net urls]
    unfold validateProxy
    by_cases h : probeAll net urls = true
    · rw [if_pos h]
      simp [h]
    · rw [if_neg h]
      simpa using h
  · intro h
    unfold validateProxy at h ⊢
    by_cases hp : probeAll net urls = true
    · rw [if_pos hp]
    · rw [if_neg hp] at h
      cases h

/-- A candidate of the spec's batch scenario. -/
def candA : Proxy := { ip := "20.0.0.1", port := "80", protocol := "http" }

/-- Witness for claim C3 at the default test URL set, a network answering 200
everywhere, and probes spanning 0.2 seconds. -/
theorem validate_proxy_pass_iff_witness :
    ((validateProxy validatorTestUrls (fun _ => .status 200) 0 (1/5) 7 candA).1 = true ↔
        ∀ u ∈ validatorTestUrls, (fun _ => ProbeOutcome.status 200) u = .status 200) ∧
    ((validateProxy validatorTestUrls (fun _ => .status 200) 0 (1/5) 7 candA).1 = true →
        (validateProxy validatorTestUrls (fun _ => .status 200) 0 (1/5) 7 candA).2.response_time
          = some (some ((1/5 : ℚ) - 0))) :=
  validate_proxy_pass_iff validatorTestUrls (fun _ => .status 200) 0 (1/5) 7 candA

/-- Counterexample to claim C3 as stated: a proxy whose probes all answer HTTP
204 (a 2xx status) satisfies the claim's acceptance condition, yet
`validate_proxy` rejects it, because the code compares the status against
exactly 200 (`response.status != 200`). -/
theorem validate_proxy_2xx_counterexample :
    (validatorTestUrls.all (fun u => claimProbeOk ((fun _ => ProbeOutcome.status 204) u))
        = true) ∧
    (validateProxy validatorTestUrls (fun _ => .status 204) 0 1 2 candA).1 = false := by
  decide

/-- Claim C4 (amended): a validation attempt sets the proxy's `last_checked`
timestamp only when the verdict is pass; on a failing attempt the proxy dict is
left completely unchanged (no `last_checked` update). -/
theorem validate_proxy_last_checked (urls : List String) (net : String → ProbeOutcome)
    (t0 t1 now : ℚ) (p : Proxy) :
    ((validateProxy urls net t0 t1 now p).1 = true →
        (validateProxy urls net t0 t1 now p).2.last_checked = some now) ∧
    ((validateProxy urls net t0 t1 now p).1 = false →
        (validateProxy urls net t0 t1 now p).2 = p) := by
  unfold validateProxy
  by_cases hp : probeAll net urls = true
  · rw [if_pos hp]
    exact ⟨fun _ => rfl, fun h => Bool.noConfusion h⟩
  · rw [if_neg hp]
    exact ⟨fun h => Bool.noConfusion h, fun _ => rfl⟩

/-- Witness for claim C4's amended theorem at a concrete failing attempt. -/
theorem validate_proxy_last_checked_witness :
    ((validateProxy validatorTestUrls (fun _ => .failure) 41 42 99 candA).1 = true →
        (validateProxy validatorTestUrls (fun _ => .failure) 41 42 99 candA).2.last_checked
          = some 99) ∧
    ((validateProxy validatorTestUrls (fun _ => .failure) 41 42 99 candA).1 = false →
        (validateProxy validatorTestUrls (fun _ => .failure) 41 42 99 candA).2 = candA) :=
  validate_proxy_last_checked validatorTestUrls (fun _ => .failure) 41 42 99 candA

/-- A proxy whose `last_checked` is a stale timestamp 0. -/
def pStale : Proxy :=
  { ip := "9.9.9.9", port := "80", protocol := "http", last_checked := some 0 }

/-- Counterexample to claim C4 as stated: a validation attempt at time 99 whose
verdict is fail leaves `last_checked` at its stale value 0 instead of setting
it to the time of the attempt. -/
theorem validate_proxy_fail_last_checked_counterexample :
    (validateProxy validatorTestUrls (fun _ => .failure) 41 42 99 pStale).1 = false ∧
    (validateProxy validatorTestUrls (fun _ => .failure) 41 42 99 pStale).2.last_checked
      = some 0 ∧
    (some (0 : ℚ) ≠ some (99 : ℚ)) := by
  decide

/-- Claim C5 (amended): a validation attempt never touches the lifetime
counters — `validate_proxy` leaves `success_count` and `fail_count` exactly as
they were (for freshly scraped proxies they are absent, so no validation makes
`success_count + fail_count ≥ 1` hold) — and only
`ProxyStorage.update_proxy_status` increments a counter: each call adds exactly
one to the success (or fail) counter sum of every stored row matching the given
identity and leaves every other row unchanged. -/
theorem validation_counters_untouched (urls : List String) (net : String → ProbeOutcome)
    (t0 t1 now : ℚ) (p : Proxy) (store : List DBRow) (ip port : String) (su : Bool) :
    ((validateProxy urls net t0 t1 now p).2.success_count = p.success_count ∧
     (validateProxy urls net t0 t1 now p).2.fail_count = p.fail_count) ∧
    ((updateProxyStatus store ip port su).map
        (fun r => r.success_count + r.fail_count) =
      store.map (fun r =>
        if r.ip = ip ∧ r.port = port then r.success_count + r.fail_count + 1
        else r.success_count + r.fail_count)) := by
  constructor
  · unfold validateProxy
    by_cases hp : probeAll net urls = true
    · rw [if_pos hp]
      exact ⟨rfl, rfl⟩
    · rw [if_neg hp]
      exact ⟨rfl, rfl⟩
  · unfold updateProxyStatus
    rw [List.map_map]
    refine List.map_congr_left ?_
    intro r _
    by_cases hk : r.ip = ip ∧ r.port = port
    · rw [Function.comp_apply, if_pos hk, if_pos hk]
      cases su
      · show r.success_count + (r.fail_count + 1) = r.success_count + r.fail_count + 1
        ring
      · show r.success_count + 1 + r.fail_count = r.success_count + r.fail_count + 1
        ring
    · rw [Function.comp_apply, if_neg hk, if_neg hk]

/-- A proxy with both counters present and zero. -/
def pZeroCnt : Proxy :=
  { ip := "8.8.8.8", port := "80", protocol := "http",
    success_count := some 0, fail_count := some 0 }

/-- Counterexample to claim C5 as stated: a validation attempt touches
`pZeroCnt` and even passes, yet afterwards `success_count + fail_count = 0`,
not `≥ 1` — the validators never increment the counters. -/
theorem validation_counters_counterexample :
    (validateProxy validatorTestUrls (fun _ => .status 200) 0 1 2 pZeroCnt).1 = true ∧
    (validateProxy validatorTestUrls (fun _ => .status 200) 0 1 2 pZeroCnt).2.success_count
      = some 0 ∧
    (validateProxy validatorTestUrls (fun _ => .status 200) 0 1 2 pZeroCnt).2.fail_count
      = some 0 ∧
    ¬ (1 ≤ (0 : Int) + 0) := by
  decide

/-- Witness for claim C5's amended theorem at a concrete store and attempt. -/
theorem validation_counters_untouched_witness :
    (((validateProxy validatorTestUrls (fun _ => .status 200) 0 1 2 pZeroCnt).2.success_count
        = pZeroCnt.success_count ∧
      (validateProxy validatorTestUrls (fun _ => .status 200) 0 1 2 pZeroCnt).2.fail_count
        = pZeroCnt.fail_count) ∧
    ((updateProxyStatus [] "8.8.8.8" "80" true).map
        (fun r => r.success_count + r.fail_count) =
      ([] : List DBRow).map (fun r =>
        if r.ip = "8.8.8.8" ∧ r.port = "80" then r.success_count + r.fail_count + 1
        else r.success_count + r.fail_count))) :=
  validation_counters_untouched validatorTestUrls (fun _ => .status 200) 0 1 2 pZeroCnt
    [] "8.8.8.8" "80" true

/-! ### Storage lemmas and claims C6, C7, C8 -/

/-- The store's rows have pairwise distinct primary keys — the invariant SQLite
maintains for the `proxies` table. -/
def KeysUnique (store : List DBRow) : Prop :=
  store.Pairwise (fun a b => ¬ (a.ip = b.ip ∧ a.port = b.port))

lemma length_filter_partition {α : Type} (l : List α) (p : α → Bool) :
    (l.filter p).length + (l.filter (fun a => ! p a)).length = l.length := by
  induction l with
  | nil => rfl
  | cons a l ih => cases hp : p a <;> simp [List.filter_cons, hp] <;> omega

lemma filter_upsert_key (store : List DBRow) (r : DBRow) :
    (upsertRow store r).filter (fun q => sameKey q r) = [r] := by
  unfold upsertRow
  rw [List.filter_append]
  have h1 : ((store.filter (fun q => ! sameKey q r)).filter (fun q => sameKey q r)) = [] := by
    rw [List.filter_filter]
    apply List.filter_eq_nil_iff.mpr
    intro a _
    simp
  have h2 : ([r].filter (fun q => sameKey q r)) = [r] := by
    simp [sameKey]
  rw [h1, h2, List.nil_append]

lemma filter_upsert_not_key (store : List DBRow) (r : DBRow) :
    (upsertRow store r).filter (fun q => ! sameKey q r) =
      store.filter (fun q => ! sameKey q r) := by
  unfold upsertRow
  rw [List.filter_append]
  have h1 : ((store.filter (fun q => ! sameKey q r)).filter (fun q => ! sameKey q r)) =
      store.filter (fun q => ! sameKey q r) := by
    rw [List.filter_filter]
    apply List.filter_congr
    intro a _
    cases sameKey a r <;> rfl
  have h2 : ([r].filter (fun q => ! sameKey q r)) = [] := by
    simp [sameKey]
  rw [h1, h2, List.append_nil]

lemma filter_sameKey_length_le_one (store : List DBRow) (r : DBRow)
    (hu : KeysUnique store) :
    (store.filter (fun q => sameKey q r)).length ≤ 1 := by
  induction store with
  | nil => simp
  | cons a l ih =>
      rw [KeysUnique, List.pairwise_cons] at hu
      by_cases ha : sameKey a r = true
      · have hl : l.filter (fun q => sameKey q r) = [] := by
          apply List.filter_eq_nil_iff.mpr
          intro b hb hc
          rw [sameKey, decide_eq_true_eq] at ha hc
          exact hu.1 b hb ⟨ha.1.trans hc.1.symm, ha.2.trans hc.2.symm⟩
        simp [List.filter_cons, ha, hl]
      · simp only [List.filter_cons, ha, if_false, Bool.false_eq_true]
        exact ih hu.2

/-- The shared content of claims C5 and C8 about `update_proxy_status`: one
call adds exactly one to the counter sum of every row matching the identity and
leaves the sum of every other row unchanged. -/
lemma updateProxyStatus_counter_sum (store : List DBRow) (ip port : String) (su : Bool) :
    (updateProxyStatus store ip port su).map (fun r => r.success_count + r.fail_count) =
      store.map (fun r =>
        if r.ip = ip ∧ r.port = port then r.success_count + r.fail_count + 1
        else r.success_count + r.fail_count) := by
  unfold updateProxyStatus
  rw [List.map_map]
  refine List.map_congr_left ?_
  intro r _
  by_cases hk : r.ip = ip ∧ r.port = port
  · rw [Function.comp_apply, if_pos hk, if_pos hk]
    cases su
    · show r.success_count + (r.fail_count + 1) = r.success_count + r.fail_count + 1
      ring
    · show r.success_count + 1 + r.fail_count = r.success_count + r.fail_count + 1
      ring
  · rw [Function.comp_apply, if_neg hk, if_neg hk]

/-- Claim C6 (amended): when `save_proxies` is given a proxy whose `ip:port`
identity already exists in the store, the stored record is updated, never
duplicated — the store keeps its size, the key's unique row becomes exactly the
incoming tuple, and all other rows are untouched.  Last-write-wins applies to
ALL fields INCLUDING the lifetime counters `success_count` and `fail_count`:
`INSERT OR REPLACE` overwrites them with the incoming values (defaulted to 0);
nothing accumulates. -/
theorem save_proxies_update_no_duplicate (store : List DBRow) (p : Proxy) (now : ℚ)
    (hu : KeysUnique store)
    (hex : ∃ r ∈ store, r.ip = p.ip ∧ r.port = p.port) :
    (saveProxies store [p] now).length = store.length ∧
    (saveProxies store [p] now).filter (fun q => sameKey q (toRow now p)) = [toRow now p] ∧
    (saveProxies store [p] now).filter (fun q => ! sameKey q (toRow now p)) =
      store.filter (fun q => ! sameKey q (toRow now p)) := by
  refine ⟨?_, filter_upsert_key store (toRow now p), filter_upsert_not_key store (toRow now p)⟩
  have hle := filter_sameKey_length_le_one store (toRow now p) hu
  have hge : 0 < (store.filter (fun q => sameKey q (toRow now p))).length := by
    rcases hex with ⟨r, hr, hip, hport⟩
    have hmem : r ∈ store.filter (fun q => sameKey q (toRow now p)) :=
      List.mem_filter.mpr ⟨hr, by rw [sameKey, decide_eq_true_eq]; exact ⟨hip, hport⟩⟩
    exact List.length_pos.mpr (List.ne_nil_of_mem hmem)
  have hpart := length_filter_partition store (fun q => sameKey q (toRow now p))
  have hlen : (saveProxies store [p] now).length =
      (store.filter (fun q => ! sameKey q (toRow now p))).length + 1 := by
    show (upsertRow store (toRow now p)).length = _
    unfold upsertRow
    rw [List.length_append]
    rfl
  omega

/-- A stored row whose lifetime counters are 3 successes and 4 failures. -/
def rowOld : DBRow :=
  { ip := "1.2.3.4", port := "80", protocol := "http", country := "US",
    anonymity := "elite", response_time := some 1, last_checked := 0,
    success_count := 3, fail_count := 4 }

/-- An incoming dict for the same `1.2.3.4:80` identity carrying counters 1
and 2. -/
def dictNew : Proxy :=
  { ip := "1.2.3.4", port := "80", protocol := "http",
    success_count := some 1, fail_count := some 2 }

/-- Witness for claim C6's amended theorem at a one-row store whose key
collides with the incoming dict. -/
theorem save_proxies_update_no_duplicate_witness :
    (saveProxies [rowOld] [dictNew] 7).length = [rowOld].length ∧
    (saveProxies [rowOld] [dictNew] 7).filter (fun q => sameKey q (toRow 7 dictNew)) =
      [toRow 7 dictNew] ∧
    (saveProxies [rowOld] [dictNew] 7).filter (fun q => ! sameKey q (toRow 7 dictNew)) =
      [rowOld].filter (fun q => ! sameKey q (toRow 7 dictNew)) :=
  save_proxies_update_no_duplicate [rowOld] dictNew 7
    (List.pairwise_singleton _ _) ⟨rowOld, by simp, rfl, rfl⟩

/-- Counterexample to claim C6 as stated: storing counters (3,4) and then
upserting the same identity with counters (1,2) leaves the stored counters at
(1,2) — `INSERT OR REPLACE` overwrote them — not at the accumulated (4,6) the
claim predicts. -/
theorem save_proxies_accumulate_counterexample :
    (saveProxies [rowOld] [dictNew] 7).map (fun r => (r.success_count, r.fail_count)) =
      [((1 : Int), (2 : Int))] ∧
    ¬ ((1 : Int) = 3 + 1 ∧ (2 : Int) = 4 + 2) := by
  decide

/-- Claim C8: `save_proxies` is idempotent on the counters — a second save of
the identical dict leaves the stored counters at the incoming values, not
doubled — and only `update_proxy_status` increments a counter, by exactly one
on the matching identity per call. -/
theorem save_proxies_counters_idempotent (store : List DBRow) (p : Proxy) (n1 n2 : ℚ)
    (st2 : List DBRow) (ip port : String) (su : Bool) :
    ((saveProxies (saveProxies store [p] n1) [p] n2).filter
        (fun q => sameKey q (toRow n2 p))).map
        (fun r => (r.success_count, r.fail_count)) =
      [(p.success_count.getD 0, p.fail_count.getD 0)] ∧
    ((saveProxies store [p] n2).filter (fun q => sameKey q (toRow n2 p))).map
        (fun r => (r.success_count, r.fail_count)) =
      [(p.success_count.getD 0, p.fail_count.getD 0)] ∧
    ((updateProxyStatus st2 ip port su).map (fun r => r.success_count + r.fail_count) =
      st2.map (fun r =>
        if r.ip = ip ∧ r.port = port then r.success_count + r.fail_count + 1
        else r.success_count + r.fail_count)) := by
  refine ⟨?_, ?_, updateProxyStatus_counter_sum st2 ip port su⟩
  · show ((upsertRow (upsertRow store (toRow n1 p)) (toRow n2 p)).filter
        (fun q => sameKey q (toRow n2 p))).map (fun r => (r.success_count, r.fail_count)) = _
    rw [filter_upsert_key]
    rfl
  · show ((upsertRow store (toRow n2 p)).filter (fun q => sameKey q (toRow n2 p))).map
        (fun r => (r.success_count, r.fail_count)) = _
    rw [filter_upsert_key]
    rfl

/-- Witness for claim C8 at a concrete store, dict and status update. -/
theorem save_proxies_counters_idempotent_witness :
    ((saveProxies (saveProxies [rowOld] [dictNew] 5) [dictNew] 6).filter
        (fun q => sameKey q (toRow 6 dictNew))).map
        (fun r => (r.success_count, r.fail_count)) =
      [(dictNew.success_count.getD 0, dictNew.fail_count.getD 0)] ∧
    ((saveProxies [rowOld] [dictNew] 6).filter (fun q => sameKey q (toRow 6 dictNew))).map
        (fun r => (r.success_count, r.fail_count)) =
      [(dictNew.success_count.getD 0, dictNew.fail_count.getD 0)] ∧
    ((updateProxyStatus [rowOld] "1.2.3.4" "80" true).map
        (fun r => r.success_count + r.fail_count) =
      [rowOld].map (fun r =>
        if r.ip = "1.2.3.4" ∧ r.port = "80" then r.success_count + r.fail_count + 1
        else r.success_count + r.fail_count)) :=
  save_proxies_counters_idempotent [rowOld] dictNew 5 6 [rowOld] "1.2.3.4" "80" true

/-! ### Round trip (claim C7) -/

/-- Saving a batch of key-distinct dicts into a store holding none of their
keys appends the corresponding rows. -/
lemma saveProxies_disjoint_append (ps : List Proxy) (now : ℚ) :
    ∀ acc : List DBRow,
      (∀ r ∈ acc, ∀ p ∈ ps, ¬ (r.ip = p.ip ∧ r.port = p.port)) →
      (ps.map (fun p => (p.ip, p.port))).Nodup →
      saveProxies acc ps now = acc ++ ps.map (toRow now) := by
  induction ps with
  | nil =>
      intro acc _ _
      simp [saveProxies]
  | cons p ps ih =>
      intro acc hdisj hnd
      rw [List.map_cons, List.nodup_cons] at hnd
      have hup : upsertRow acc (toRow now p) = acc ++ [toRow now p] := by
        unfold upsertRow
        congr 1
        apply List.filter_eq_self.mpr
        intro r hr
        have hd := hdisj r hr p (by simp)
        rw [sameKey]
        rcases hk : decide (r.ip = (toRow now p).ip ∧ r.port = (toRow now p).port) with _ | _
        · rfl
        · exact absurd (of_decide_eq_true hk) hd
      have hstep : saveProxies acc (p :: ps) now = saveProxies (acc ++ [toRow now p]) ps now := by
        show saveProxies (upsertRow acc (toRow now p)) ps now = _
        rw [hup]
      rw [hstep, ih (acc ++ [toRow now p]) ?_ hnd.2]
      · rw [List.append_assoc]
        rfl
      · intro r hr q hq
        rcases List.mem_append.mp hr with hr2 | hr2
        · exact hdisj r hr2 q (List.mem_cons_of_mem _ hq)
        · rw [List.mem_singleton] at hr2
          subst hr2
          intro hc
          apply hnd.1
          rw [List.mem_map]
          exact ⟨q, hq, by rw [Prod.mk.injEq]; exact ⟨hc.1.symm, hc.2.symm⟩⟩

/-- How the `load_proxies` row filter evaluates, at `min_uptime = 0`, on a row
freshly written by `save_proxies`: with non-negative counters and a
`last_checked` inside the hard-coded 24-hour window, the row is selected
exactly when its counters are not both zero (SQLite's `0/0` division is `NULL`
and fails the comparison). -/
lemma rowSelected_toRow (p : Proxy) (now : ℚ)
    (hage : now - 86400 ≤ p.last_checked.getD now)
    (hs : 0 ≤ p.success_count.getD 0) (hf2 : 0 ≤ p.fail_count.getD 0) :
    rowSelected 0 now (toRow now p) =
      decide (¬ (p.success_count.getD 0 + p.fail_count.getD 0 = 0)) := by
  have e : rowSelected 0 now (toRow now p) =
      ((if p.success_count.getD 0 + p.fail_count.getD 0 = 0 then false
        else decide ((p.success_count.getD 0 : ℚ) /
              ((p.success_count.getD 0 : ℚ) + (p.fail_count.getD 0 : ℚ)) ≥ 0))
       && decide (p.last_checked.getD now ≥ now - 86400)) := rfl
  rw [e]
  by_cases hz : p.success_count.getD 0 + p.fail_count.getD 0 = 0
  · rw [if_pos hz]
    simp [hz]
  · rw [if_neg hz, decide_eq_true (show (p.last_checked.getD now ≥ now - 86400) from hage),
      decide_eq_true (show ¬ (p.success_count.getD 0 + p.fail_count.getD 0 = 0) from hz)]
    rw [Bool.and_true]
    apply decide_eq_true
    apply div_nonneg
    · exact_mod_cast hs
    · have : (0 : Int) ≤ p.success_count.getD 0 + p.fail_count.getD 0 := by omega
      exact_mod_cast this

/-- Claim C7 (amended): `save_proxies` into an empty store followed by
`load_proxies` with `min_uptime = 0` returns exactly the saved records whose
lifetime counters are not both zero, each with the save-time defaults filled in
(absent `response_time` stored as 0, absent `last_checked` stored as the save
time, absent counters stored as 0) and every key present in the loaded dict.
Records whose counters are both zero are dropped: SQLite evaluates their
uptime ratio `0 * 1.0 / 0` to `NULL`, which fails the `>= 0` comparison even at
`min_uptime = 0`.  (`load_proxies` takes no `max_age` parameter at all: the
24-hour `last_checked` window is hard-coded, so the batch is assumed saved
within it.) -/
theorem save_load_round_trip (ps : List Proxy) (now : ℚ)
    (hnd : (ps.map (fun p => (p.ip, p.port))).Nodup)
    (hage : ∀ p ∈ ps, now - 86400 ≤ p.last_checked.getD now)
    (hcnt : ∀ p ∈ ps, 0 ≤ p.success_count.getD 0 ∧ 0 ≤ p.fail_count.getD 0) :
    loadProxies (saveProxies [] ps now) 0 now =
      (ps.filter (fun p => decide (¬ (p.success_count.getD 0 + p.fail_count.getD 0 = 0)))).map
        (fun p => rowToDict (toRow now p)) := by
  have hsave : saveProxies [] ps now = ps.map (toRow now) := by
    have := saveProxies_disjoint_append ps now [] (by intro r hr; cases hr) hnd
    rw [this, List.nil_append]
  rw [hsave]
  unfold loadProxies
  rw [List.filter_map]
  have hfil : ps.filter (rowSelected 0 now ∘ toRow now) =
      ps.filter (fun p => decide (¬ (p.success_count.getD 0 + p.fail_count.getD 0 = 0))) := by
    apply List.filter_congr
    intro p hp
    show rowSelected 0 now (toRow now p) = _
    exact rowSelected_toRow p now (hage p hp) (hcnt p hp).1 (hcnt p hp).2
  rw [hfil, List.map_map]
  rfl

/-- A dict with one success on record, saved at time 50. -/
def dictGood : Proxy :=
  { ip := "3.3.3.3", port := "80", protocol := "http",
    success_count := some 1, fail_count := some 0, last_checked := some 50 }

/-- Witness for claim C7's amended theorem: a one-element batch with counters
(1, 0) round-trips through save and load at `min_uptime = 0`. -/
theorem save_load_round_trip_witness :
    loadProxies (saveProxies [] [dictGood] 50) 0 50 =
      ([dictGood].filter
        (fun p => decide (¬ (p.success_count.getD 0 + p.fail_count.getD 0 = 0)))).map
        (fun p => rowToDict (toRow 50 p)) :=
  save_load_round_trip [dictGood] 50 (by simp)
    (by
      intro p hp
      rw [List.mem_singleton] at hp
      subst hp
      show (50 : ℚ) - 86400 ≤ 50
      norm_num)
    (by decide)

/-- A dict that has never been probed: both counters absent, hence saved as
zero. -/
def dictZeroCnt : Proxy := { ip := "2.2.2.2", port := "80", protocol := "http" }

/-- Counterexample to claim C7 as stated: a record with both counters zero is
saved (the store is non-empty) but `load_proxies` at `min_uptime = 0` returns
nothing, because SQLite's `0/0` uptime ratio is `NULL`, not the 0 the claim
assumes. -/
theorem save_load_zero_counter_counterexample :
    saveProxies [] [dictZeroCnt] 100 ≠ [] ∧
    loadProxies (saveProxies [] [dictZeroCnt] 100) 0 100 = [] := by
  decide

/-! ### Refresh loop (claim C9) -/

lemma scrape_foldl_errors (now : ℚ) :
    ∀ fetches : List (Except String (List (List String))),
      (∀ f ∈ fetches, ∃ e, f = .error e) →
      ∀ acc : List Proxy,
        fetches.foldl (fun acc f =>
          match f with
          | .error _ => acc
          | .ok rows => acc ++ parseProxyList rows now) acc = acc := by
  intro fetches
  induction fetches with
  | nil =>
      intro _ acc
      rfl
  | cons f fs ih =>
      intro hall acc
      rcases hall f (by simp) with ⟨e, rfl⟩
      exact ih (fun g hg => hall g (List.mem_cons_of_mem _ hg)) acc

/-- Claim C9 (amended): when every candidate source's fetch throws during a
cycle, the per-source handlers inside `scrape_proxies` catch and log each
failure, so no exception reaches the refresh loop's own handler: the cycle
continues normally with an empty scrape result, REPLACES the pool with the
empty list (it is not preserved), leaves the current selection unchanged, and
sleeps the normal 3600-second interval — the 60-second backoff fires only for
exceptions escaping the loop body.  The loop then retries from scraping; it
never terminates the process. -/
theorem refresh_cycle_all_sources_fail (st : MgrState)
    (fetches : List (Except String (List (List String)))) (scrapeNow : ℚ)
    (net : Proxy → String → ProbeOutcome) (clock : Proxy → ℚ × ℚ × ℚ) (c : Nat)
    (hall : ∀ f ∈ fetches, ∃ e, f = .error e) :
    refreshCycle st fetches scrapeNow net clock c =
      ({ proxies := [], current_proxy := st.current_proxy }, 3600) := by
  have hscrape : scrapeProxies fetches scrapeNow = [] := by
    unfold scrapeProxies
    exact scrape_foldl_errors scrapeNow fetches hall []
  cases hcur : st.current_proxy with
  | none =>
      simp [refreshCycle, hscrape, validateProxiesMgr, hcur, rotateProxy]
  | some p =>
      simp [refreshCycle, hscrape, validateProxiesMgr, hcur]

/-- Witness for claim C9's amended theorem: one failing source, no current
selection. -/
theorem refresh_cycle_all_sources_fail_witness :
    refreshCycle { proxies := [proxyX], current_proxy := none }
        [.error "connection refused"] 0 (fun _ _ => .failure) (fun _ => (0, 0, 0)) 0 =
      ({ proxies := [],
         current_proxy := ({ proxies := [proxyX], current_proxy := none } :
            MgrState).current_proxy }, 3600) :=
  refresh_cycle_all_sources_fail { proxies := [proxyX], current_proxy := none }
    [.error "connection refused"] 0 (fun _ _ => .failure) (fun _ => (0, 0, 0)) 0
    (by
      intro f hf
      rw [List.mem_singleton] at hf
      exact ⟨"connection refused", hf⟩)

/-- Counterexample to claim C9 as stated: starting from a pool holding `proxyX`,
a cycle in which every source's fetch throws ends with the pool REPLACED by the
empty list (not preserved) and a sleep of the normal 3600 seconds (not the
60-second backoff the claim predicts). -/
theorem refresh_cycle_counterexample :
    refreshCycle { proxies := [proxyX], current_proxy := some proxyX }
        [.error "boom1", .error "boom2"] 0 (fun _ _ => .failure) (fun _ => (0, 0, 0)) 0 =
      ({ proxies := [], current_proxy := some proxyX }, 3600) ∧
    ¬ ((3600 : ℚ) = 60) ∧
    ¬ (([] : List Proxy) = [proxyX]) := by
  decide

end ProxyMgr
